import Mathlib

/-!
Verification of the customer-segmentation, at-risk identification and
summary-aggregation logic of the Snowflake Customer 360 analytics app
(`SNOWFLAKE_CUSTOMER360_APP.py`), as a shallow embedding in Lean.

Sentiment scores are modelled as rationals (the source uses Python floats
over small decimal thresholds, with no arithmetic beyond comparison,
averaging and division, so exact rational arithmetic is faithful).
Customer identifiers are modelled as naturals with their linear order
standing in for the string order pandas uses when sorting group keys.
-/

namespace Customer360

/-- Response urgency of a communication (`RESPONSE_URGENCY` column). -/
inductive Urgency
  | immediate
  | standard
  | low
deriving DecidableEq

/-- One enriched communication record as consumed by the analytics code:
`EMAIL_ID`, `CUSTOMER_ID`, `SENTIMENT_SCORE`, `ESCALATION_NEEDED`,
`RESPONSE_URGENCY` (the columns actually read by the segmentation and
aggregation logic). -/
structure CommunicationRecord where
  email_id : ℕ
  customer_id : ℕ
  sentiment_score : ℚ
  escalation_needed : Bool
  response_urgency : Urgency
deriving DecidableEq

/-- One row of the `customer_segments` dataframe built at lines 649-656:
`CUSTOMER_ID`, `AVG_SENTIMENT`, `TOTAL_ESCALATIONS`, `TOTAL_EMAILS`,
`URGENT_EMAILS`. -/
structure CustomerAggregate where
  customer_id : ℕ
  avg_sentiment : ℚ
  total_escalations : ℕ
  total_emails : ℕ
  urgent_emails : ℕ
deriving DecidableEq

/-- The four segment labels returned by `categorize_customer`. -/
inductive Segment
  | HighRisk
  | Champions
  | NeedsAttention
  | Standard
deriving DecidableEq

/-- First branch condition of `categorize_customer` (line 660):
`row['TOTAL_ESCALATIONS'] > 2 or row['AVG_SENTIMENT'] < -0.3`. -/
def high_risk_cond (row : CustomerAggregate) : Bool :=
  decide (2 < row.total_escalations) || decide (row.avg_sentiment < -3/10)

/-- Second branch condition of `categorize_customer` (line 662):
`row['AVG_SENTIMENT'] > 0.3 and row['TOTAL_ESCALATIONS'] == 0`. -/
def champion_cond (row : CustomerAggregate) : Bool :=
  decide ((3 : ℚ)/10 < row.avg_sentiment) && decide (row.total_escalations = 0)

/-- Third branch condition of `categorize_customer` (line 664):
`row['URGENT_EMAILS'] > 1`. -/
def needs_attention_cond (row : CustomerAggregate) : Bool :=
  decide (1 < row.urgent_emails)

/-- `categorize_customer` (lines 659-667): if/elif/elif/else chain,
first match wins, `Standard` is the fallback. -/
def categorize_customer (row : CustomerAggregate) : Segment :=
  if high_risk_cond row then Segment.HighRisk
  else if champion_cond row then Segment.Champions
  else if needs_attention_cond row then Segment.NeedsAttention
  else Segment.Standard

/-- The records of one customer: the group of `CUSTOMER_ID` = `cid` produced
by `email_data.groupby('CUSTOMER_ID')` at line 649. -/
def recordsFor (records : List CommunicationRecord) (cid : ℕ) :
    List CommunicationRecord :=
  records.filter (fun r => r.customer_id == cid)

/-- The aggregate row built for one group by the `.agg` dictionary at lines
650-653: mean of `SENTIMENT_SCORE`, sum of `ESCALATION_NEEDED` (booleans
count as 0/1), count of `EMAIL_ID`, count of
`RESPONSE_URGENCY == 'immediate'`. -/
def aggregateFor (records : List CommunicationRecord) (cid : ℕ) :
    CustomerAggregate :=
  let g := recordsFor records cid
  { customer_id := cid
    avg_sentiment := (g.map (·.sentiment_score)).sum / (g.length : ℚ)
    total_escalations := (g.filter (·.escalation_needed)).length
    total_emails := g.length
    urgent_emails :=
      (g.filter (fun r => r.response_urgency == Urgency.immediate)).length }

/-- The group keys of `groupby('CUSTOMER_ID')`: the distinct customer
identifiers, sorted ascending (pandas `groupby` defaults to `sort=True`,
so the resulting rows are ordered by key, not by encounter order). -/
def groupKeys (records : List CommunicationRecord) : List ℕ :=
  ((records.map (·.customer_id)).dedup).insertionSort (· ≤ ·)

/-- The `customer_segments` dataframe of lines 649-656: one aggregate row
per distinct customer identifier, rows ordered by the sorted group keys. -/
def customer_segments (records : List CommunicationRecord) :
    List CustomerAggregate :=
  (groupKeys records).map (aggregateFor records)

/-- The boolean mask of lines 704-707:
`(AVG_SENTIMENT < 0) | (TOTAL_ESCALATIONS > 1)`. -/
def at_risk_cond (row : CustomerAggregate) : Bool :=
  decide (row.avg_sentiment < 0) || decide (1 < row.total_escalations)

/-- `at_risk_customers` (lines 704-707): the `CUSTOMER_ID` column of the
rows of `customer_segments` passing the at-risk mask, as a list. -/
def at_risk_customers (records : List CommunicationRecord) : List ℕ :=
  ((customer_segments records).filter at_risk_cond).map (·.customer_id)

/-- Errors a Python arithmetic expression can raise. The code never defines
or raises any `EmptyInputError`; `zeroDivision` models Python's
`ZeroDivisionError`, and `emptyInput` exists only to state that the code
does not report it. -/
inductive AggError
  | zeroDivision
  | emptyInput
deriving DecidableEq

/-- Python scalar division: raises `ZeroDivisionError` when the denominator
is zero (the source divides unconditionally, with no guard). -/
def pyDiv (a b : ℚ) : Except AggError ℚ :=
  if b = 0 then Except.error AggError.zeroDivision else Except.ok (a / b)

/-- The escalation-rate computation of `show_executive_dashboard` lines
290-294 (and `show_ai_insights` line 599): escalation count divided by the
record count, times 100, with no emptiness guard. -/
def escalation_rate (records : List CommunicationRecord) :
    Except AggError ℚ :=
  match pyDiv ((records.filter (·.escalation_needed)).length : ℚ)
      (records.length : ℚ) with
  | Except.ok q => Except.ok (q * 100)
  | Except.error e => Except.error e

/-- `pandas` mean of a series, as at line 598: `none` models the `NaN`
that pandas returns for the mean of an empty series. -/
def pandas_mean (xs : List ℚ) : Option ℚ :=
  if xs.length = 0 then none else some (xs.sum / (xs.length : ℚ))

/-- The average-sentiment summary statistic of `show_ai_insights` line 598:
`email_data['SENTIMENT_SCORE'].mean()`. -/
def summary_avg_sentiment (records : List CommunicationRecord) : Option ℚ :=
  pandas_mean (records.map (·.sentiment_score))

/-- The static fallback rendered by the `except` arm of `show_ai_insights`
(line 643). -/
def ai_insights_fallback : String :=
  "AI analysis temporarily unavailable. Showing manual insights."

/-- The AI-insights page (lines 586-722), abstracted to the values it
renders that the claims speak about: the `try/except` of lines 594-643
turns any failing AI-summary attempt into the static fallback text, and
the segmentation/at-risk analysis after the `try/except` runs on the
records regardless of the attempt's outcome. The attempt is passed in as
an `Except`, standing for the external completion call succeeding with a
string or raising. -/
def show_ai_insights (records : List CommunicationRecord)
    (ai_attempt : Except String String) : String × List ℕ :=
  (match ai_attempt with
    | Except.ok insights => insights
    | Except.error _ => ai_insights_fallback,
    at_risk_customers records)

/-- A two-customer record set in which customer 2 is encountered before
customer 1, both with sentiment -1 and an escalation. -/
def c7_records : List CommunicationRecord :=
  [⟨1, 2, -1, true, Urgency.standard⟩, ⟨2, 1, -1, true, Urgency.standard⟩]

/-- A one-record set for exercising the aggregation invariants. -/
def c10_records : List CommunicationRecord :=
  [⟨1, 5, 0, false, Urgency.standard⟩]

/-- One row of the result table of `search_customers` (lines 146-162). -/
structure SearchRow where
  email_id : ℕ
  customer_id : ℕ
  customer_name : String
  email_classification : String
  sentiment_category : String
  executive_summary : String
  date_received : ℕ
deriving DecidableEq

/-- `search_customers` (lines 143-165): the warehouse query either returns
a result table or raises; the bare `except` returns an empty dataframe on
any exception. -/
def search_customers (query_result : Except String (List SearchRow)) :
    List SearchRow :=
  match query_result with
  | Except.ok rows => rows
  | Except.error _ => []

end Customer360

namespace Customer360

/-- C1 first: the concrete scenario from the spec on an otherwise arbitrary
aggregate. -/
theorem categorize_spec_example :
    categorize_customer ⟨1, 1/2, 0, 3, 3⟩ = Segment.Champions := by
  norm_num [categorize_customer, high_risk_cond, champion_cond,
    needs_attention_cond]

/-- C1: `categorize_customer` evaluates its four rules in strict order with
first match winning: `HighRisk` iff escalations > 2 or sentiment < -0.3;
else `Champions` iff sentiment > 0.3 and escalations = 0; else
`NeedsAttention` iff urgent count > 1; else `Standard`.  In particular the
aggregate with sentiment 0.5, 0 escalations and 3 urgent emails is a
`Champions` row, the Champion rule being checked before the urgent rule. -/
theorem C1_segmentation_rule_order (row : CustomerAggregate) :
    (categorize_customer row = Segment.HighRisk ↔
      (2 < row.total_escalations ∨ row.avg_sentiment < -3/10))
    ∧ (categorize_customer row = Segment.Champions ↔
      (¬(2 < row.total_escalations ∨ row.avg_sentiment < -3/10) ∧
        ((3 : ℚ)/10 < row.avg_sentiment ∧ row.total_escalations = 0)))
    ∧ (categorize_customer row = Segment.NeedsAttention ↔
      (¬(2 < row.total_escalations ∨ row.avg_sentiment < -3/10) ∧
        ¬((3 : ℚ)/10 < row.avg_sentiment ∧ row.total_escalations = 0) ∧
        1 < row.urgent_emails))
    ∧ (categorize_customer row = Segment.Standard ↔
      (¬(2 < row.total_escalations ∨ row.avg_sentiment < -3/10) ∧
        ¬((3 : ℚ)/10 < row.avg_sentiment ∧ row.total_escalations = 0) ∧
        ¬(1 < row.urgent_emails)))
    ∧ categorize_customer ⟨1, 1/2, 0, 3, 3⟩ = Segment.Champions := by
  refine ⟨?_, ?_, ?_, ?_, categorize_spec_example⟩ <;>
    unfold categorize_customer high_risk_cond champion_cond
      needs_attention_cond <;>
    split_ifs with h1 h2 h3 <;>
    simp_all [decide_eq_true_eq, not_or, not_and_or]

/-- C2: the three boundary thresholds are strict: sentiment exactly -0.3
never makes a row `HighRisk` through the sentiment clause (with at most 2
escalations the row is not `HighRisk` at all), sentiment exactly 0.3 never
makes a row `Champions`, and exactly 2 escalations never make a row
`HighRisk` through the escalation clause (with sentiment at least -0.3 the
row is not `HighRisk` at all). -/
theorem C2_strict_boundaries :
    (∀ c e t u, e ≤ 2 →
      categorize_customer ⟨c, -3/10, e, t, u⟩ ≠ Segment.HighRisk)
    ∧ (∀ c t u,
      categorize_customer ⟨c, 3/10, 0, t, u⟩ ≠ Segment.Champions)
    ∧ (∀ c s t u, -3/10 ≤ s →
      categorize_customer ⟨c, s, 2, t, u⟩ ≠ Segment.HighRisk) := by
  refine ⟨fun c e t u he => ?_, fun c t u => ?_, fun c s t u hs => ?_⟩ <;>
    unfold categorize_customer high_risk_cond champion_cond
      needs_attention_cond <;>
    split_ifs with h1 h2 h3 <;>
    simp_all [decide_eq_true_eq] <;>
    first
    | omega
    | linarith

/-- Closed instantiation of `C2_strict_boundaries` at concrete aggregates. -/
theorem C2_strict_boundaries_witness :
    categorize_customer ⟨1, -3/10, 2, 4, 0⟩ ≠ Segment.HighRisk
    ∧ categorize_customer ⟨1, 3/10, 0, 4, 0⟩ ≠ Segment.Champions
    ∧ categorize_customer ⟨1, 0, 2, 4, 0⟩ ≠ Segment.HighRisk :=
  ⟨C2_strict_boundaries.1 1 2 4 0 (by norm_num),
   C2_strict_boundaries.2.1 1 4 0,
   C2_strict_boundaries.2.2 1 0 4 0 (by norm_num)⟩

/-- The customer-identifier field of an aggregate row is its group key. -/
theorem aggregateFor_customer_id
    (records : List CommunicationRecord) (cid : ℕ) :
    (aggregateFor records cid).customer_id = cid := rfl

/-- A key is a group key exactly when some record carries it. -/
theorem mem_groupKeys (records : List CommunicationRecord) (cid : ℕ) :
    cid ∈ groupKeys records ↔ cid ∈ records.map (·.customer_id) := by
  unfold groupKeys
  rw [List.Perm.mem_iff (List.perm_insertionSort _ _), List.mem_dedup]

/-- The at-risk list is the sorted group-key list restricted to the keys
whose aggregate passes the at-risk mask. -/
theorem at_risk_customers_eq_filter (records : List CommunicationRecord) :
    at_risk_customers records =
      (groupKeys records).filter
        (fun cid => at_risk_cond (aggregateFor records cid)) := by
  unfold at_risk_customers customer_segments
  induction groupKeys records with
  | nil => rfl
  | cons k ks ih =>
      simp only [List.map_cons, List.filter_cons]
      by_cases h : at_risk_cond (aggregateFor records k) = true
      · simp [h, ih, aggregateFor_customer_id]
      · simp [h, ih]

/-- C3: the summary aggregation has no emptiness guard: on zero records the
escalation-rate division raises `ZeroDivisionError` (never any
`EmptyInputError`, which the code does not define) and the pandas mean of
the sentiment column yields `NaN` (modelled as `none`). -/
theorem C3_empty_aggregation_behavior :
    escalation_rate [] = Except.error AggError.zeroDivision
    ∧ escalation_rate [] ≠ Except.error AggError.emptyInput
    ∧ summary_avg_sentiment [] = none := by
  refine ⟨?_, ?_, ?_⟩ <;>
    simp [escalation_rate, pyDiv, summary_avg_sentiment, pandas_mean]

/-- C4: a customer identifier is in the at-risk list iff some record
carries it and its aggregate has average sentiment < 0 or more than 1
escalation; the aggregate with sentiment -0.01 and 0 escalations passes
the mask, and so does the one with sentiment 0.5 and 2 escalations. -/
theorem C4_at_risk_membership
    (records : List CommunicationRecord) (cid : ℕ) :
    (cid ∈ at_risk_customers records ↔
      (cid ∈ records.map (·.customer_id)
        ∧ at_risk_cond (aggregateFor records cid) = true))
    ∧ at_risk_cond ⟨7, -1/100, 0, 1, 0⟩ = true
    ∧ at_risk_cond ⟨8, 1/2, 2, 2, 0⟩ = true := by
  refine ⟨?_, ?_, ?_⟩
  · rw [at_risk_customers_eq_filter, List.mem_filter, mem_groupKeys]
  · norm_num [at_risk_cond]
  · norm_num [at_risk_cond]

/-- C5: the at-risk mask is strictly looser than the `HighRisk` segment:
every `HighRisk` aggregate passes the mask, while the aggregate with
sentiment -0.1 and 0 escalations passes the mask without being
`HighRisk`. -/
theorem C5_at_risk_looser_than_high_risk :
    (∀ row : CustomerAggregate,
      categorize_customer row = Segment.HighRisk → at_risk_cond row = true)
    ∧ at_risk_cond ⟨1, -1/10, 0, 2, 0⟩ = true
    ∧ categorize_customer ⟨1, -1/10, 0, 2, 0⟩ ≠ Segment.HighRisk := by
  refine ⟨fun row h => ?_, by norm_num [at_risk_cond], by
    have hval : categorize_customer ⟨1, -1/10, 0, 2, 0⟩ = Segment.Standard := by
      norm_num [categorize_customer, high_risk_cond, champion_cond,
        needs_attention_cond]
    simp [hval]⟩
  unfold categorize_customer at h
  split_ifs at h with h1 h2 h3
  · unfold high_risk_cond at h1
    unfold at_risk_cond
    simp only [Bool.or_eq_true, decide_eq_true_eq] at h1 ⊢
    rcases h1 with h1 | h1
    · exact Or.inr (by omega)
    · exact Or.inl (by linarith)

/-- Closed instantiation of `C5_at_risk_looser_than_high_risk` at a
concrete `HighRisk` aggregate. -/
theorem C5_witness : at_risk_cond ⟨2, -1/2, 3, 4, 0⟩ = true :=
  C5_at_risk_looser_than_high_risk.1 ⟨2, -1/2, 3, 4, 0⟩
    (by norm_num [categorize_customer, high_risk_cond])

/-- C6: segmentation is total and mutually exclusive: every aggregate is
assigned exactly one segment, and that segment is one of the four
labels. -/
theorem C6_totality_exclusivity (row : CustomerAggregate) :
    (∃! s : Segment, categorize_customer row = s)
    ∧ (categorize_customer row = Segment.HighRisk
      ∨ categorize_customer row = Segment.Champions
      ∨ categorize_customer row = Segment.NeedsAttention
      ∨ categorize_customer row = Segment.Standard) := by
  refine ⟨⟨categorize_customer row, rfl, fun s h => h.symm⟩, ?_⟩
  unfold categorize_customer
  split_ifs <;> simp

/-- C8: any failure of the AI-summary attempt is replaced by the static
fallback text, and the at-risk analysis rendered after the `try/except`
does not depend on the attempt's outcome. -/
theorem C8_ai_failure_fallback (records : List CommunicationRecord)
    (err : String) :
    show_ai_insights records (Except.error err) =
      (ai_insights_fallback, at_risk_customers records)
    ∧ ∀ attempt, (show_ai_insights records attempt).2 =
        at_risk_customers records :=
  ⟨rfl, fun _ => rfl⟩

/-- C9: when the warehouse query raises, `search_customers` returns the
empty table, indistinguishable from a successful query with no matching
records. -/
theorem C9_search_error_empty (err : String) :
    search_customers (Except.error err) = []
    ∧ search_customers (Except.error err) =
        search_customers (Except.ok ([] : List SearchRow)) :=
  ⟨rfl, rfl⟩

/-- The sorted group keys of the two-customer record set. -/
theorem c7_groupKeys : groupKeys c7_records = [1, 2] := by
  simp [groupKeys, c7_records, List.insertionSort, List.orderedInsert,
    List.dedup_cons_of_not_mem, List.dedup_nil]

/-- Customer 1's aggregate in the two-customer record set passes the
at-risk mask. -/
theorem c7_agg1 : at_risk_cond (aggregateFor c7_records 1) = true := by
  norm_num [at_risk_cond, aggregateFor, recordsFor, c7_records,
    List.filter_cons, List.filter_nil]

/-- Customer 2's aggregate in the two-customer record set passes the
at-risk mask. -/
theorem c7_agg2 : at_risk_cond (aggregateFor c7_records 2) = true := by
  norm_num [at_risk_cond, aggregateFor, recordsFor, c7_records,
    List.filter_cons, List.filter_nil]

/-- C7 fails as stated: on a record set that encounters customer 2 before
customer 1, with both at risk, the at-risk list is `[1, 2]` — ordered by
customer identifier, not `[2, 1]`, the encounter order of the record
set. -/
theorem C7_counterexample :
    (c7_records.map (·.customer_id)).dedup = [2, 1]
    ∧ at_risk_cond (aggregateFor c7_records 1) = true
    ∧ at_risk_cond (aggregateFor c7_records 2) = true
    ∧ at_risk_customers c7_records = [1, 2]
    ∧ at_risk_customers c7_records ≠ [2, 1] := by
  have hval : at_risk_customers c7_records = [1, 2] := by
    rw [at_risk_customers_eq_filter, c7_groupKeys]
    simp [List.filter, c7_agg1, c7_agg2]
  refine ⟨?_, c7_agg1, c7_agg2, hval, ?_⟩
  · simp [c7_records, List.dedup_cons_of_not_mem, List.dedup_nil]
  · rw [hval]
    simp

/-- C7 (amended): the at-risk list is the sorted group-key list of the
per-customer aggregation restricted to the at-risk keys, so it is sorted
ascending by customer identifier (pandas `groupby` sorts group keys); it
is not the encounter order of the record set and not a severity order. -/
theorem C7_at_risk_order_sorted (records : List CommunicationRecord) :
    at_risk_customers records =
      (groupKeys records).filter
        (fun cid => at_risk_cond (aggregateFor records cid))
    ∧ (at_risk_customers records).Sorted (· ≤ ·) := by
  refine ⟨at_risk_customers_eq_filter records, ?_⟩
  rw [at_risk_customers_eq_filter records]
  unfold groupKeys
  exact List.Sorted.filter _ (List.sorted_insertionSort _ _)

/-- C10: the per-customer aggregation yields one row per distinct customer
identifier (no identifier repeats), and every row aggregates at least one
communication, so the pipeline never hands a zero-communication aggregate
to `categorize_customer`. -/
theorem C10_segments_unique_and_nonempty
    (records : List CommunicationRecord) :
    ((customer_segments records).map (·.customer_id)).Nodup
    ∧ ∀ row ∈ customer_segments records, 1 ≤ row.total_emails := by
  constructor
  · have hfun :
        ((fun a : CustomerAggregate => a.customer_id) ∘
          aggregateFor records) = id := rfl
    have hmap : (customer_segments records).map (·.customer_id) =
        groupKeys records := by
      unfold customer_segments
      rw [List.map_map, hfun, List.map_id]
    rw [hmap]
    unfold groupKeys
    exact (List.perm_insertionSort _ _).nodup_iff.mpr (List.nodup_dedup _)
  · intro row hrow
    unfold customer_segments at hrow
    rcases List.mem_map.mp hrow with ⟨cid, hcid, rfl⟩
    rcases List.mem_map.mp ((mem_groupKeys records cid).mp hcid) with
      ⟨r, hr, hrc⟩
    have hmem : r ∈ recordsFor records cid :=
      List.mem_filter.mpr ⟨hr, by simp [hrc]⟩
    exact List.length_pos.mpr (List.ne_nil_of_mem hmem)

/-- Closed instantiation of `C10_segments_unique_and_nonempty` on the
one-record set, at its single aggregate row. -/
theorem C10_segments_witness :
    ((customer_segments c10_records).map (·.customer_id)).Nodup
    ∧ 1 ≤ (aggregateFor c10_records 5).total_emails :=
  ⟨(C10_segments_unique_and_nonempty c10_records).1,
    (C10_segments_unique_and_nonempty c10_records).2
      (aggregateFor c10_records 5) (by
        have hk : groupKeys c10_records = [5] := by
          simp [groupKeys, c10_records, List.insertionSort,
            List.orderedInsert]
        unfold customer_segments
        rw [hk]
        simp)⟩

end Customer360
